import Mathlib

set_option maxHeartbeats 1000000

/-- Category enum of the technique catalog, from src/types.ts (enum Category). -/
inductive Category where
  | UNIVERSAL
  | GEMINI
  | OPENAI
  | CLAUDE
  | GROK
  | PERPLEXITY
  | OPENSOURCE
  | COMMAND
  | VIDEO
  | AUDIO
  | VOICE
deriving DecidableEq

/-- Example pair of a technique detail block, from src/types.ts (TopicDetails.examples). -/
structure ExamplePair where
  type : String
  content : String
deriving DecidableEq

/-- Row of a usage-guidance table, from src/types.ts (TopicDetails.when_to_use). -/
structure WhenToUseRow where
  level : String
  description : Option String
  use_cases : Option String
deriving DecidableEq

/-- Thinking-level row, from src/types.ts (TopicDetails.thinking_levels). -/
structure ThinkingLevel where
  keyword : String
  description : String
deriving DecidableEq

/-- Optional richer detail block of a technique, from src/types.ts (TopicDetails). -/
structure TopicDetails where
  title : Option String
  subtitle : Option String
  body : Option String
  best_practices : Option (List String)
  examples : Option (List ExamplePair)
  configuration_code : Option String
  when_to_use : Option (List WhenToUseRow)
  thinking_levels : Option (List ThinkingLevel)
  critical_note : Option String
  marketing_note : Option String
deriving DecidableEq

/-- Technique catalog entry, from src/types.ts (interface Topic); the category string is
mapped to the Category enum as the UI does. -/
structure Topic where
  symbol : String
  element : String
  category : Category
  description : String
  usage : String
  details : Option TopicDetails
deriving DecidableEq

/-- Toggle of a technique in the builder Selection Set, from src/App.tsx lines 28 to 34
(toggleBuilderTopic): membership is tested by symbol; a member is removed by filtering out
every entry with that symbol, a non-member is appended at the end. -/
def toggleBuilderTopic (builderTopics : List Topic) (topic : Topic) : List Topic :=
  if builderTopics.any (fun t => t.symbol == topic.symbol) then
    builderTopics.filter (fun t => t.symbol != topic.symbol)
  else
    builderTopics ++ [topic]

/-- The removal branch of toggleBuilderTopic, from src/App.tsx line 30: filter out every
entry whose symbol equals the removed symbol. -/
def removeTopic (builderTopics : List Topic) (topic : Topic) : List Topic :=
  builderTopics.filter (fun t => t.symbol != topic.symbol)

/-- Drag-and-drop add, from src/App.tsx lines 36 to 44 (handleDrop): look the dropped symbol
up in the catalog and append the topic only if no entry with that symbol is already present. -/
def handleDrop (builderTopics : List Topic) (allTopics : List Topic) (symbol : String) :
    List Topic :=
  match allTopics.find? (fun t => t.symbol == symbol) with
  | some topic =>
      if builderTopics.any (fun t => t.symbol == symbol) then builderTopics
      else builderTopics ++ [topic]
  | none => builderTopics

/-- Generation mode of the Prompt Builder, from src/components/PromptBuilder.tsx line 68. -/
inductive GenerationMode where
  | TEXT
  | VIDEO
  | AUDIO
  | VOICE
deriving DecidableEq

/-- Ingredient partition of the Selection Set, from src/components/PromptBuilder.tsx
lines 89 to 93: techniques whose category is none of Video, Audio, Voice. -/
def ingredientsOf (selectedTopics : List Topic) : List Topic :=
  selectedTopics.filter (fun t =>
    t.category != Category.VIDEO && t.category != Category.AUDIO &&
      t.category != Category.VOICE)

/-- Modifier partition of the Selection Set, from src/components/PromptBuilder.tsx
lines 95 to 99: techniques whose category is Video, Audio or Voice. -/
def modifiersOf (selectedTopics : List Topic) : List Topic :=
  selectedTopics.filter (fun t =>
    t.category == Category.VIDEO || t.category == Category.AUDIO ||
      t.category == Category.VOICE)

/-- Media-modifier test for a single technique (the predicate of modifiersOf). -/
def isMediaModifier (t : Topic) : Bool :=
  t.category == Category.VIDEO || t.category == Category.AUDIO ||
    t.category == Category.VOICE

/-- Mode derivation, from src/components/PromptBuilder.tsx lines 101 to 107: examine the
modifier partition with fixed priority Video then Audio then Voice, defaulting to TEXT. -/
def currentMode (selectedTopics : List Topic) : GenerationMode :=
  let modifiers := modifiersOf selectedTopics
  if modifiers.any (fun t => t.category == Category.VIDEO) then GenerationMode.VIDEO
  else if modifiers.any (fun t => t.category == Category.AUDIO) then GenerationMode.AUDIO
  else if modifiers.any (fun t => t.category == Category.VOICE) then GenerationMode.VOICE
  else GenerationMode.TEXT

/-- Sample catalog entry used to instantiate theorems (an ingredient-style technique). -/
def clarityTopic : Topic :=
  ⟨"Cl", "Clarity", Category.UNIVERSAL, "Be clear.", "clarity", none⟩

/-- Sample catalog entry used to instantiate theorems (a video-category modifier). -/
def videoGenTopic : Topic :=
  ⟨"Vg", "VideoGen", Category.VIDEO, "Video generation.", "videogen", none⟩

/-- Sample catalog entry used to instantiate theorems (an audio-category modifier). -/
def audioGenTopic : Topic :=
  ⟨"Ag", "AudioGen", Category.AUDIO, "Audio generation.", "audiogen", none⟩

/-- Sample catalog entry used to instantiate theorems (a second ingredient). -/
def brevityTopic : Topic :=
  ⟨"Br", "Brevity", Category.OPENAI, "Be brief.", "brevity", none⟩

lemma modifiersOf_append (S T : List Topic) :
    modifiersOf (S ++ T) = modifiersOf S ++ modifiersOf T := by
  simp [modifiersOf, List.filter_append]

lemma mem_modifiersOf {t : Topic} {S : List Topic} :
    t ∈ modifiersOf S ↔ t ∈ S ∧ isMediaModifier t = true := by
  simp [modifiersOf, isMediaModifier, List.mem_filter]

lemma currentMode_congr {S T : List Topic} (h : modifiersOf S = modifiersOf T) :
    currentMode S = currentMode T := by
  simp only [currentMode]
  rw [h]

lemma any_media_of_modifiers (S : List Topic) (c : Category)
    (hmedia : ∀ t : Topic, t.category = c → isMediaModifier t = true) :
    (modifiersOf S).any (fun t => t.category == c)
      = S.any (fun t => t.category == c) := by
  rw [Bool.eq_iff_iff]
  simp only [List.any_eq_true, mem_modifiersOf, beq_iff_eq]
  constructor
  · rintro ⟨t, ⟨htS, hm⟩, hv⟩
    exact ⟨t, htS, hv⟩
  · rintro ⟨t, htS, hv⟩
    exact ⟨t, ⟨htS, hmedia t hv⟩, hv⟩

lemma any_video_of_modifiers (S : List Topic) :
    (modifiersOf S).any (fun t => t.category == Category.VIDEO)
      = S.any (fun t => t.category == Category.VIDEO) := by
  apply any_media_of_modifiers
  intro t h
  simp [isMediaModifier, h]

lemma any_audio_of_modifiers (S : List Topic) :
    (modifiersOf S).any (fun t => t.category == Category.AUDIO)
      = S.any (fun t => t.category == Category.AUDIO) := by
  apply any_media_of_modifiers
  intro t h
  simp [isMediaModifier, h]

lemma any_voice_of_modifiers (S : List Topic) :
    (modifiersOf S).any (fun t => t.category == Category.VOICE)
      = S.any (fun t => t.category == Category.VOICE) := by
  apply any_media_of_modifiers
  intro t h
  simp [isMediaModifier, h]

lemma modifiersOf_stable_under_nonmodifier_toggle (S : List Topic) (t : Topic)
    (ht : isMediaModifier t = false)
    (hsym : ∀ m ∈ S, isMediaModifier m = true → m.symbol ≠ t.symbol) :
    modifiersOf (toggleBuilderTopic S t) = modifiersOf S := by
  unfold toggleBuilderTopic
  cases hg : S.any (fun x => x.symbol == t.symbol) with
  | true =>
      simp only [eq_self_iff_true, if_true]
      have hcomm : modifiersOf (S.filter (fun x => x.symbol != t.symbol))
          = (modifiersOf S).filter (fun x => x.symbol != t.symbol) := by
        simp [modifiersOf, List.filter_filter, Bool.and_comm]
      rw [hcomm]
      apply List.filter_eq_self.mpr
      intro m hm
      rcases mem_modifiersOf.mp hm with ⟨hmS, hmod⟩
      have := hsym m hmS hmod
      simpa [bne] using this
  | false =>
      simp only [Bool.false_eq_true, if_false]
      rw [modifiersOf_append]
      have hnil : modifiersOf [t] = [] := by
        simp only [modifiersOf, List.filter_cons, List.filter_nil]
        have ht2 : (t.category == Category.VIDEO || t.category == Category.AUDIO ||
            t.category == Category.VOICE) = false := ht
        simp [ht2]
      simp [hnil]

/-- C1: the derived Generation Mode is a pure function of the modifier subset of the
Selection Set, computed with fixed priority video before audio before voice and defaulting
to TEXT (including the empty set and sets of ingredients only); toggling a non-modifier
ingredient never changes the derived mode. -/
theorem mode_pure_function_of_modifiers :
    (∀ S T : List Topic, modifiersOf S = modifiersOf T → currentMode S = currentMode T)
    ∧ (∀ S : List Topic, (∃ t ∈ S, t.category = Category.VIDEO) →
        currentMode S = GenerationMode.VIDEO)
    ∧ (∀ S : List Topic, (¬∃ t ∈ S, t.category = Category.VIDEO) →
        (∃ t ∈ S, t.category = Category.AUDIO) → currentMode S = GenerationMode.AUDIO)
    ∧ (∀ S : List Topic, (¬∃ t ∈ S, t.category = Category.VIDEO) →
        (¬∃ t ∈ S, t.category = Category.AUDIO) →
        (∃ t ∈ S, t.category = Category.VOICE) → currentMode S = GenerationMode.VOICE)
    ∧ (∀ S : List Topic, (¬∃ t ∈ S, t.category = Category.VIDEO) →
        (¬∃ t ∈ S, t.category = Category.AUDIO) →
        (¬∃ t ∈ S, t.category = Category.VOICE) → currentMode S = GenerationMode.TEXT)
    ∧ (∀ (S : List Topic) (t : Topic), isMediaModifier t = false →
        (∀ m ∈ S, isMediaModifier m = true → m.symbol ≠ t.symbol) →
        currentMode (toggleBuilderTopic S t) = currentMode S) := by
  refine ⟨fun S T h => currentMode_congr h, ?_, ?_, ?_, ?_, ?_⟩
  · intro S hv
    have : S.any (fun t => t.category == Category.VIDEO) = true := by
      rcases hv with ⟨t, htS, ht⟩
      exact List.any_eq_true.mpr ⟨t, htS, by simp [ht]⟩
    simp [currentMode, any_video_of_modifiers, this]
  · intro S hv ha
    have hv2 : S.any (fun t => t.category == Category.VIDEO) = false := by
      rw [List.any_eq_false]
      intro t htS
      simp only [beq_iff_eq]
      exact fun h => hv ⟨t, htS, h⟩
    have ha2 : S.any (fun t => t.category == Category.AUDIO) = true := by
      rcases ha with ⟨t, htS, ht⟩
      exact List.any_eq_true.mpr ⟨t, htS, by simp [ht]⟩
    simp [currentMode, any_video_of_modifiers, any_audio_of_modifiers, hv2, ha2]
  · intro S hv ha hvoice
    have hv2 : S.any (fun t => t.category == Category.VIDEO) = false := by
      rw [List.any_eq_false]
      intro t htS
      simp only [beq_iff_eq]
      exact fun h => hv ⟨t, htS, h⟩
    have ha2 : S.any (fun t => t.category == Category.AUDIO) = false := by
      rw [List.any_eq_false]
      intro t htS
      simp only [beq_iff_eq]
      exact fun h => ha ⟨t, htS, h⟩
    have hv3 : S.any (fun t => t.category == Category.VOICE) = true := by
      rcases hvoice with ⟨t, htS, ht⟩
      exact List.any_eq_true.mpr ⟨t, htS, by simp [ht]⟩
    simp [currentMode, any_video_of_modifiers, any_audio_of_modifiers,
      any_voice_of_modifiers, hv2, ha2, hv3]
  · intro S hv ha hvoice
    have hv2 : S.any (fun t => t.category == Category.VIDEO) = false := by
      rw [List.any_eq_false]
      intro t htS
      simp only [beq_iff_eq]
      exact fun h => hv ⟨t, htS, h⟩
    have ha2 : S.any (fun t => t.category == Category.AUDIO) = false := by
      rw [List.any_eq_false]
      intro t htS
      simp only [beq_iff_eq]
      exact fun h => ha ⟨t, htS, h⟩
    have hv3 : S.any (fun t => t.category == Category.VOICE) = false := by
      rw [List.any_eq_false]
      intro t htS
      simp only [beq_iff_eq]
      exact fun h => hvoice ⟨t, htS, h⟩
    simp [currentMode, any_video_of_modifiers, any_audio_of_modifiers,
      any_voice_of_modifiers, hv2, ha2, hv3]
  · intro S t ht hsym
    exact currentMode_congr (modifiersOf_stable_under_nonmodifier_toggle S t ht hsym)

/-- Witness for C1: a Selection Set holding an ingredient, a video modifier and an audio
modifier derives VIDEO. -/
theorem mode_pure_function_of_modifiers_witness :
    currentMode [clarityTopic, videoGenTopic, audioGenTopic] = GenerationMode.VIDEO :=
  mode_pure_function_of_modifiers.2.1 [clarityTopic, videoGenTopic, audioGenTopic]
    ⟨videoGenTopic, by decide, by decide⟩

/-- Removing the unique occupant of a symbol and re-appending it is a permutation of the
original list. -/
lemma filter_ne_append_singleton_perm (S : List Topic) (t : Topic)
    (hnd : (S.map (fun x => x.symbol)).Nodup) (ht : t ∈ S) :
    ((S.filter (fun x => x.symbol != t.symbol)) ++ [t]).Perm S := by
  induction S with
  | nil => cases ht
  | cons a S ih =>
      rw [List.map_cons, List.nodup_cons] at hnd
      obtain ⟨ha, hndS⟩ := hnd
      rcases List.mem_cons.mp ht with rfl | htS
      · have hall : ∀ x ∈ S, (x.symbol != t.symbol) = true := by
          intro x hx
          have hne : x.symbol ≠ t.symbol := by
            intro hcontra
            exact ha (hcontra ▸ List.mem_map_of_mem (fun y => y.symbol) hx)
          simpa [bne_iff_ne] using hne
        have hfc : (t :: S).filter (fun x => x.symbol != t.symbol) = S := by
          simp only [List.filter_cons]
          have hself : (t.symbol != t.symbol) = false := by simp
          rw [hself]
          simp only [Bool.false_eq_true, if_false]
          exact List.filter_eq_self.mpr hall
        rw [hfc]
        exact List.perm_append_singleton t S
      · have hat : (a.symbol != t.symbol) = true := by
          have hne : a.symbol ≠ t.symbol := by
            intro hcontra
            exact ha (by
              rw [hcontra]
              exact List.mem_map_of_mem (fun y => y.symbol) htS)
          simpa [bne_iff_ne] using hne
        have hfc : (a :: S).filter (fun x => x.symbol != t.symbol)
            = a :: S.filter (fun x => x.symbol != t.symbol) := by
          simp only [List.filter_cons, hat, if_true]
        rw [hfc, List.cons_append]
        exact List.Perm.cons a (ih hndS htS)

/-- Counterexample to C2 as stated: toggling a technique that sits in the middle of the
Selection Set twice removes it and then re-appends it at the end, so the resulting list is
not exactly the prior Selection Set (the display order changes). -/
theorem toggle_twice_not_exact_counterexample :
    toggleBuilderTopic (toggleBuilderTopic
        [clarityTopic, videoGenTopic, brevityTopic] videoGenTopic) videoGenTopic
      ≠ [clarityTopic, videoGenTopic, brevityTopic] := by decide

/-- C2 (amended): toggling a technique whose symbol is not in the Selection Set twice
restores exactly the prior Selection Set; toggling a member twice restores the set of
members up to order (the result is a permutation of the prior state, with the toggled
technique re-appended at the end), provided symbols are unique in the set; and the removal
branch applied to a non-member is a no-op. -/
theorem toggle_twice_amended :
    (∀ (S : List Topic) (t : Topic),
        S.any (fun x => x.symbol == t.symbol) = false →
        toggleBuilderTopic (toggleBuilderTopic S t) t = S)
    ∧ (∀ (S : List Topic) (t : Topic),
        (S.map (fun x => x.symbol)).Nodup → t ∈ S →
        (toggleBuilderTopic (toggleBuilderTopic S t) t).Perm S)
    ∧ (∀ (S : List Topic) (t : Topic),
        S.any (fun x => x.symbol == t.symbol) = false →
        removeTopic S t = S) := by
  have hfilter : ∀ (S : List Topic) (t : Topic),
      S.any (fun x => x.symbol == t.symbol) = false →
      S.filter (fun x => x.symbol != t.symbol) = S := by
    intro S t h
    apply List.filter_eq_self.mpr
    intro x hx
    have hne := List.any_eq_false.mp h x hx
    simp only [beq_iff_eq] at hne
    simpa [bne_iff_ne] using hne
  refine ⟨?_, ?_, ?_⟩
  · intro S t h
    have h1 : toggleBuilderTopic S t = S ++ [t] := by
      unfold toggleBuilderTopic
      rw [h]
      simp
    have hg2 : (S ++ [t]).any (fun x => x.symbol == t.symbol) = true := by
      rw [List.any_append, h]
      simp
    have h2 : toggleBuilderTopic (S ++ [t]) t
        = (S ++ [t]).filter (fun x => x.symbol != t.symbol) := by
      unfold toggleBuilderTopic
      rw [hg2]
      simp
    rw [h1, h2, List.filter_append, hfilter S t h]
    simp
  · intro S t hnd ht
    have hg : S.any (fun x => x.symbol == t.symbol) = true :=
      List.any_eq_true.mpr ⟨t, ht, by simp⟩
    have h1 : toggleBuilderTopic S t = S.filter (fun x => x.symbol != t.symbol) := by
      unfold toggleBuilderTopic
      rw [hg]
      simp
    have hg2 : (S.filter (fun x => x.symbol != t.symbol)).any
        (fun x => x.symbol == t.symbol) = false := by
      rw [List.any_eq_false]
      intro x hx
      have hkeep := (List.mem_filter.mp hx).2
      simp only [bne_iff_ne] at hkeep
      simpa [beq_iff_eq] using hkeep
    have h2 : toggleBuilderTopic (S.filter (fun x => x.symbol != t.symbol)) t
        = S.filter (fun x => x.symbol != t.symbol) ++ [t] := by
      unfold toggleBuilderTopic
      rw [hg2]
      simp
    rw [h1, h2]
    exact filter_ne_append_singleton_perm S t hnd ht
  · intro S t h
    exact hfilter S t h

/-- Witness for C2 (amended): toggling a fresh technique twice on a concrete one-element
Selection Set restores it exactly. -/
theorem toggle_twice_amended_witness :
    toggleBuilderTopic (toggleBuilderTopic [clarityTopic] brevityTopic) brevityTopic
      = [clarityTopic] :=
  toggle_twice_amended.1 [clarityTopic] brevityTopic (by decide)

/-- Selection Sets reachable in the application: the builder starts empty (src/App.tsx
line 15) and is mutated only by toggleBuilderTopic (card click or remove) and handleDrop
(drag-and-drop). -/
inductive ReachableSel : List Topic → Prop where
  | init : ReachableSel []
  | toggle (S : List Topic) (t : Topic) (h : ReachableSel S) :
      ReachableSel (toggleBuilderTopic S t)
  | drop (S allTopics : List Topic) (symbol : String) (h : ReachableSel S) :
      ReachableSel (handleDrop S allTopics symbol)

lemma nodup_symbols_append (S : List Topic) (t : Topic)
    (hnd : (S.map (fun x => x.symbol)).Nodup)
    (hnotin : ∀ x ∈ S, (x.symbol == t.symbol) = false) :
    ((S ++ [t]).map (fun x => x.symbol)).Nodup := by
  rw [List.map_append, List.map_cons, List.map_nil, List.nodup_append]
  refine ⟨hnd, List.nodup_singleton _, ?_⟩
  intro a haS haT
  rcases List.mem_singleton.mp haT with rfl
  rcases List.mem_map.mp haS with ⟨x, hx, hxs⟩
  have := hnotin x hx
  rw [beq_eq_false_iff_ne] at this
  exact this hxs

/-- C9: every reachable Selection Set has pairwise distinct technique symbols: both the
toggle operation and the drag-and-drop add preserve uniqueness of membership, so the set
is never a multiset. -/
theorem reachable_selection_symbols_nodup (S : List Topic) (h : ReachableSel S) :
    (S.map (fun x => x.symbol)).Nodup := by
  induction h with
  | init => simp
  | toggle S t _ ih =>
      unfold toggleBuilderTopic
      cases hg : S.any (fun x => x.symbol == t.symbol) with
      | true =>
          simp only [eq_self_iff_true, if_true]
          have hsub : List.Sublist
              ((S.filter (fun x => x.symbol != t.symbol)).map (fun x => x.symbol))
              (S.map (fun x => x.symbol)) :=
            (List.filter_sublist S).map (fun x => x.symbol)
          exact List.Nodup.sublist hsub ih
      | false =>
          simp only [Bool.false_eq_true, if_false]
          exact nodup_symbols_append S t ih
            (fun x hx => by simpa using List.any_eq_false.mp hg x hx)
  | drop S allTopics symbol _ ih =>
      unfold handleDrop
      cases hfind : allTopics.find? (fun t => t.symbol == symbol) with
      | none => exact ih
      | some topic =>
          cases hg : S.any (fun x => x.symbol == symbol) with
          | true =>
              simp only [eq_self_iff_true, if_true]
              exact ih
          | false =>
              simp only [Bool.false_eq_true, if_false]
              have hts : topic.symbol = symbol := by
                have := List.find?_some hfind
                simpa [beq_iff_eq] using this
              refine nodup_symbols_append S topic ih (fun x hx => ?_)
              have := List.any_eq_false.mp hg x hx
              rw [hts]
              simpa using this

/-- Witness for C9: a concrete reachable Selection Set built by a toggle and a drop has
pairwise distinct symbols. -/
theorem reachable_selection_symbols_nodup_witness :
    ((handleDrop (toggleBuilderTopic [] clarityTopic)
        [clarityTopic, videoGenTopic] "Vg").map (fun x => x.symbol)).Nodup :=
  reachable_selection_symbols_nodup _
    (ReachableSel.drop _ [clarityTopic, videoGenTopic] "Vg"
      (ReachableSel.toggle [] clarityTopic ReachableSel.init))

/-- Role of a chat Message, from src/components/PromptBuilder.tsx lines 13 to 17. -/
inductive Role where
  | user
  | model
deriving DecidableEq

/-- Chat transcript entry, from src/components/PromptBuilder.tsx lines 13 to 17
(interface Message): role, text, optional inline image data URL. -/
structure Message where
  role : Role
  text : String
  image : Option String
deriving DecidableEq

/-- Simulated reply text, from src/components/PromptBuilder.tsx lines 239 to 242: a fixed
header plus a mode-dependent body (VOICE falls through to the default text branch exactly
as the if/else chain in the source does). -/
def simulationText (mode : GenerationMode) : String :=
  "// SIMULATION: API KEY MISSING.\n" ++
    (match mode with
     | GenerationMode.VIDEO => "Simulating Video Render... [████████░░] 80%"
     | GenerationMode.AUDIO => "Simulating Audio Synthesis... [██████░░░░] 60%"
     | _ => "Please add your API Key to generate real research and infographics.")

/-- Generic failure reply, from src/components/PromptBuilder.tsx line 280. -/
def generateErrorText : String := "Error: Could not generate content. Please try again."

/-- Model of the JavaScript trim call on the prompt input (line 219 of
src/components/PromptBuilder.tsx): drop leading and trailing whitespace. -/
def jsTrim (s : String) : String :=
  String.mk (((s.data.dropWhile (fun c => c.isWhitespace)).reverse.dropWhile
      (fun c => c.isWhitespace)).reverse)

/-- JavaScript truthiness of the expression (imageResult or undefined) at line 275:
null and the empty string are both falsy and map to an absent image field. -/
def jsImageOr (value : Option String) : Option String :=
  match value with
  | none => none
  | some s => if s = "" then none else some s

/-- The condition guarding the parallel illustrative-image call, from
src/components/PromptBuilder.tsx line 265: first turn (empty transcript at call time),
not a regenerate, and derived mode TEXT. -/
def runImageGen (messages : List Message) (isRegen : Bool) (mode : GenerationMode) :
    Bool :=
  messages.length == 0 && !isRegen && mode == GenerationMode.TEXT

/-- One settled generation turn of the Prompt Builder, from
src/components/PromptBuilder.tsx lines 218 to 284 (handleGenerate). Inputs model the
state captured by the handler and the outcomes of the external calls:
messages is the transcript at invocation time (the optimistic user append works on it),
textOutcome is the result of chat.sendMessage (ok text, or a thrown failure), and
imageOutcome is the return value of generateInfographic, which catches internally and
returns null on any failure (lines 197 to 216), hence an Option rather than an Except.
The returned pair is the transcript and the isBuilding flag once the turn has settled:
the empty-prompt early return (line 220), the optimistic user append (line 232), the
missing-API-key simulation branch (lines 236 to 248), the Promise.all of the content and
conditional image calls (lines 264 to 270), the success append (line 272), the catch
append (line 280) and the finally (line 282) are translated branch for branch. -/
def handleGenerateResult (messages : List Message) (userPrompt : String)
    (isRegen apiKeyPresent : Bool) (mode : GenerationMode)
    (textOutcome : Except Unit String) (imageOutcome : Option String) :
    List Message × Bool :=
  let promptText := jsTrim userPrompt
  if promptText == "" && !isRegen then (messages, false)
  else
    let ms1 := if isRegen then messages else messages ++ [⟨Role.user, promptText, none⟩]
    if !apiKeyPresent then
      (ms1 ++ [⟨Role.model, simulationText mode, none⟩], false)
    else
      match textOutcome with
      | Except.ok replyText =>
          let imageResult :=
            if runImageGen messages isRegen mode then imageOutcome else none
          (ms1 ++ [⟨Role.model, replyText, jsImageOr imageResult⟩], false)
      | Except.error _ =>
          (ms1 ++ [⟨Role.model, generateErrorText, none⟩], false)

/-- C3: the parallel illustrative-image call is issued exactly on a first-turn,
non-regenerate, TEXT-mode generation; on that path a failed image call (generateInfographic
returning null) still appends an assistant Message with the text populated and the image
field absent; on every other path the image outcome is never consulted (only the single
content call matters), regardless of turn number. -/
theorem first_turn_text_mode_image_call :
    (∀ (ms : List Message) (r : Bool) (m : GenerationMode),
        runImageGen ms r m = true ↔ ms = [] ∧ r = false ∧ m = GenerationMode.TEXT)
    ∧ (∀ (p replyText : String), (jsTrim p == "") = false →
        handleGenerateResult [] p false true GenerationMode.TEXT
            (Except.ok replyText) none
          = ([⟨Role.user, jsTrim p, none⟩, ⟨Role.model, replyText, none⟩], false))
    ∧ (∀ (ms : List Message) (p : String) (r : Bool) (m : GenerationMode)
        (tOut : Except Unit String) (img1 img2 : Option String),
        runImageGen ms r m = false →
        handleGenerateResult ms p r true m tOut img1
          = handleGenerateResult ms p r true m tOut img2) := by
  refine ⟨?_, ?_, ?_⟩
  · intro ms r m
    simp [runImageGen, Bool.and_eq_true, Bool.not_eq_true', beq_iff_eq,
      List.length_eq_zero, and_assoc]
  · intro p replyText hp
    simp [handleGenerateResult, hp, runImageGen, jsImageOr]
  · intro ms p r m tOut img1 img2 hri
    unfold handleGenerateResult
    cases tOut with
    | ok t => simp [hri]
    | error e => rfl

/-- Witness for C3: a concrete first-turn TEXT-mode generation whose image call failed
still yields the user Message followed by an assistant Message with text and no image. -/
theorem first_turn_text_mode_image_call_witness :
    handleGenerateResult [] "Summarize X" false true GenerationMode.TEXT
        (Except.ok "An answer.") none
      = ([⟨Role.user, jsTrim "Summarize X", none⟩, ⟨Role.model, "An answer.", none⟩],
          false) :=
  first_turn_text_mode_image_call.2.1 "Summarize X" "An answer." (by decide)

/-- C6: a failure thrown by the backend content call is caught at the call site: the turn
still returns normally, appends the single generic failure Message after the (possibly
optimistically extended) transcript and sets the lifecycle flag back to idle; no further
call is made with the same inputs. -/
theorem backend_failure_caught :
    ∀ (ms : List Message) (p : String) (r : Bool) (m : GenerationMode)
      (img : Option String),
      (jsTrim p == "" && !r) = false →
      handleGenerateResult ms p r true m (Except.error ()) img
        = ((if r then ms else ms ++ [⟨Role.user, jsTrim p, none⟩])
            ++ [⟨Role.model, generateErrorText, none⟩], false) := by
  intro ms p r m img hp
  simp [handleGenerateResult, hp]

/-- Witness for C6: a concrete failing first-turn generation appends the generic failure
Message after the optimistic user Message and returns to idle. -/
theorem backend_failure_caught_witness :
    handleGenerateResult [] "Summarize Y" false true GenerationMode.TEXT
        (Except.error ()) none
      = ([⟨Role.user, jsTrim "Summarize Y", none⟩,
          ⟨Role.model, generateErrorText, none⟩], false) :=
  backend_failure_caught [] "Summarize Y" false GenerationMode.TEXT none (by decide)

/-- C8: with the API key absent the turn short-circuits: the result never consults the
backend outcomes (no call is attempted), a simulated placeholder assistant Message whose
text is determined by the current mode is appended, and the lifecycle returns to idle;
the VIDEO and AUDIO simulation texts really differ from the default one. -/
theorem missing_api_key_short_circuit :
    ∀ (ms : List Message) (p : String) (r : Bool) (m : GenerationMode)
      (tOut1 tOut2 : Except Unit String) (img1 img2 : Option String),
      (jsTrim p == "" && !r) = false →
      (handleGenerateResult ms p r false m tOut1 img1
          = ((if r then ms else ms ++ [⟨Role.user, jsTrim p, none⟩])
              ++ [⟨Role.model, simulationText m, none⟩], false))
      ∧ handleGenerateResult ms p r false m tOut1 img1
          = handleGenerateResult ms p r false m tOut2 img2
      ∧ simulationText GenerationMode.VIDEO ≠ simulationText GenerationMode.TEXT
      ∧ simulationText GenerationMode.AUDIO ≠ simulationText GenerationMode.TEXT := by
  intro ms p r m tOut1 tOut2 img1 img2 hp
  refine ⟨?_, ?_, by decide, by decide⟩
  · simp [handleGenerateResult, hp]
  · simp [handleGenerateResult, hp]

/-- Witness for C8: a concrete keyless VIDEO-mode generation appends the user Message and
the video simulation Message, ignoring the supplied backend outcomes. -/
theorem missing_api_key_short_circuit_witness :
    handleGenerateResult [] "Summarize Z" false false GenerationMode.VIDEO
        (Except.ok "unused") (some "unused-image")
      = ([⟨Role.user, jsTrim "Summarize Z", none⟩,
          ⟨Role.model, simulationText GenerationMode.VIDEO, none⟩], false) :=
  (missing_api_key_short_circuit [] "Summarize Z" false GenerationMode.VIDEO
      (Except.ok "unused") (Except.error ()) (some "unused-image") none (by decide)).1

/-- C10: the generate handler is append-only on the transcript: for every input state and
every backend outcome the resulting message list is the prior transcript extended by a
suffix; nothing is removed, edited or reordered. -/
theorem transcript_append_only :
    ∀ (ms : List Message) (p : String) (r k : Bool) (m : GenerationMode)
      (tOut : Except Unit String) (img : Option String),
      ∃ tail : List Message,
        (handleGenerateResult ms p r k m tOut img).1 = ms ++ tail := by
  intro ms p r k m tOut img
  cases r with
  | true =>
      cases k with
      | false =>
          exact ⟨[⟨Role.model, simulationText m, none⟩], by simp [handleGenerateResult]⟩
      | true =>
          cases tOut with
          | ok t =>
              exact ⟨[⟨Role.model, t,
                  jsImageOr (if runImageGen ms true m then img else none)⟩],
                by simp [handleGenerateResult]⟩
          | error e =>
              exact ⟨[⟨Role.model, generateErrorText, none⟩],
                by simp [handleGenerateResult]⟩
  | false =>
      cases hq : (jsTrim p == "") with
      | true => exact ⟨[], by simp [handleGenerateResult, hq]⟩
      | false =>
          cases k with
          | false =>
              exact ⟨[⟨Role.user, jsTrim p, none⟩, ⟨Role.model, simulationText m, none⟩],
                by simp [handleGenerateResult, hq]⟩
          | true =>
              cases tOut with
              | ok t =>
                  exact ⟨[⟨Role.user, jsTrim p, none⟩, ⟨Role.model, t,
                      jsImageOr (if runImageGen ms false m then img else none)⟩],
                    by simp [handleGenerateResult, hq]⟩
              | error e =>
                  exact ⟨[⟨Role.user, jsTrim p, none⟩,
                      ⟨Role.model, generateErrorText, none⟩],
                    by simp [handleGenerateResult, hq]⟩

/-- Slide of the generated presentation deck, from src/unnamed/part_002 lines 17 to 23
(interface Slide). -/
structure Slide where
  title : String
  subtitle : Option String
  points : List String
  visualDescription : Option String
  imageUrl : Option String
deriving DecidableEq

/-- JavaScript truthiness of the expression (value or fallback) as in
(response.text or the literal empty-array string) at src/unnamed/part_002 line 297:
undefined and the empty string are falsy. -/
def jsStringOr (value : Option String) (fallback : String) : String :=
  match value with
  | none => fallback
  | some s => if s = "" then fallback else s

/-- Parse-failure stub substituted for the slide deck, from src/unnamed/part_002
line 300. -/
def parseErrorSlides : List Slide :=
  [⟨"Error", none, ["Failed to generate slides."], some "", none⟩]

/-- Outer-failure stub for the whole presentation request, from src/unnamed/part_002
line 332. -/
def presentationErrorSlides : List Slide :=
  [⟨"Error", none, ["Could not generate presentation."], some "", none⟩]

/-- Mock slide deck of the keyless branch, from src/unnamed/part_002 lines 266 to 273. -/
def mockSlides (topic : Topic) : List Slide :=
  [⟨topic.element, some "Simulation: API Key Missing",
      ["Please add API Key for real content."], some "", none⟩,
   ⟨"Concept", none, [topic.description], some "", none⟩,
   ⟨"Usage", none, [topic.usage], some "", none⟩]

/-- Hero-image step of generatePresentation, from src/unnamed/part_002 lines 305 to 326:
run only on a non-empty deck, its own try/catch merely warns on failure, and the image URL
is written into slide zero only when inline data was found. -/
def setHeroImage (slides : List Slide) (heroOutcome : Except Unit (Option String)) :
    List Slide :=
  match slides with
  | [] => []
  | first :: rest =>
      match heroOutcome with
      | Except.ok (some url) =>
          ⟨first.title, first.subtitle, first.points, first.visualDescription,
            some url⟩ :: rest
      | _ => first :: rest

/-- Structured-output presentation request, from src/unnamed/part_002 lines 258 to 336
(generatePresentation), as the function from the external outcomes to the slide deck
stored by setSlides: contentOutcome is the structured generateContent call (ok carries the
possibly-undefined response text), parse is the JSON.parse of that text (its exception is
the parse failure), heroOutcome is the hero-image call. The keyless mock branch, the parse
try/catch with its error stub, the hero-image step and the outer catch stub are translated
branch for branch. -/
def generatePresentationSlides (apiKeyPresent : Bool) (topic : Topic)
    (contentOutcome : Except Unit (Option String))
    (parse : String → Except String (List Slide))
    (heroOutcome : Except Unit (Option String)) : List Slide :=
  if !apiKeyPresent then mockSlides topic
  else
    match contentOutcome with
    | Except.error _ => presentationErrorSlides
    | Except.ok responseText =>
        let generatedSlides :=
          match parse (jsStringOr responseText "[]") with
          | Except.ok slides => slides
          | Except.error _ => parseErrorSlides
        setHeroImage generatedSlides heroOutcome

/-- C7: when the structured-output text fails to parse, the failure is handled locally:
the deck handed on is exactly the error-labeled stub (title Error, failure point list),
possibly with the independently generated hero image attached, and the function returns
normally for every outcome (no exception propagates). -/
theorem plan_parse_failure_stub :
    ∀ (topic : Topic) (responseText : Option String)
      (parse : String → Except String (List Slide))
      (heroOutcome : Except Unit (Option String)) (e : String),
      parse (jsStringOr responseText "[]") = Except.error e →
      ∃ heroUrl : Option String,
        generatePresentationSlides true topic (Except.ok responseText) parse heroOutcome
          = [⟨"Error", none, ["Failed to generate slides."], some "", heroUrl⟩] := by
  intro topic responseText parse heroOutcome e hp
  cases heroOutcome with
  | error u =>
      exact ⟨none, by
        simp [generatePresentationSlides, hp, setHeroImage, parseErrorSlides]⟩
  | ok o =>
      cases o with
      | none =>
          exact ⟨none, by
            simp [generatePresentationSlides, hp, setHeroImage, parseErrorSlides]⟩
      | some url =>
          exact ⟨some url, by
            simp [generatePresentationSlides, hp, setHeroImage, parseErrorSlides]⟩

/-- Witness for C7: a concrete presentation request whose text is not valid JSON and whose
hero-image call also fails yields exactly the error-labeled stub deck. -/
theorem plan_parse_failure_stub_witness :
    ∃ heroUrl : Option String,
      generatePresentationSlides true clarityTopic (Except.ok (some "not json"))
          (fun _ => Except.error "Unexpected token") (Except.error ())
        = [⟨"Error", none, ["Failed to generate slides."], some "", heroUrl⟩] :=
  plan_parse_failure_stub clarityTopic (some "not json")
    (fun _ => Except.error "Unexpected token") (Except.error ()) "Unexpected token" rfl

/-- Modelled from the spec: the Prompt Builder variant carrying the user stop action is
not under src/ (the project report documents Stop Generation via AbortController and the
README lists Stop and Refine, but the shipped PromptBuilder.tsx has no stop handler).
Builder session state for that variant: the transcript, the request-lifecycle flag, and
the generation number of the current cancellation handle; a fresh handle replaces the old
one whenever a turn starts or stop is invoked, so an in-flight call holds a stale number
afterwards. -/
structure SessionState where
  messages : List Message
  isBuilding : Bool
  token : Nat
deriving DecidableEq

/-- Synthetic system message appended by the stop action, per the spec wording. -/
def stoppedByUserText : String := "generation stopped by user"

/-- Modelled from the spec: the stop handler aborts the in-flight request (replacing the
cancellation handle), appends the single stopped-by-user Message, and returns the
lifecycle to idle. -/
def handleStop (st : SessionState) : SessionState :=
  ⟨st.messages ++ [⟨Role.model, stoppedByUserText, none⟩], false, st.token + 1⟩

/-- Modelled from the spec: the catch handler of a turn distinguishes cancellation from
error by checking whether the caught failure is the cancellation signal; the abort signal
appends nothing, any other failure appends the generic error Message and returns to
idle. -/
def deliverFailure (st : SessionState) (isAbortSignal : Bool) : SessionState :=
  if isAbortSignal then st
  else ⟨st.messages ++ [⟨Role.model, generateErrorText, none⟩], false, st.token⟩

/-- Modelled from the spec: a turn result is appended only when its cancellation handle is
still the current one; a result arriving with a superseded handle is discarded. -/
def deliverTurnResult (st : SessionState) (callToken : Nat) (replyText : String) :
    SessionState :=
  if callToken == st.token then
    ⟨st.messages ++ [⟨Role.model, replyText, none⟩], false, st.token⟩
  else st

/-- C4: invoking stop while a request is in flight appends exactly one Message carrying
the stopped-by-user marker, returns the lifecycle to idle, the cancelled call's own
failure (the abort signal) appends no additional error Message, and the cancelled call's
late result (carrying the pre-stop handle) is discarded. -/
theorem stop_action_appends_marker_once :
    ∀ (st : SessionState) (replyText : String), st.isBuilding = true →
      (handleStop st).messages
          = st.messages ++ [⟨Role.model, stoppedByUserText, none⟩]
      ∧ (handleStop st).isBuilding = false
      ∧ deliverFailure (handleStop st) true = handleStop st
      ∧ deliverTurnResult (handleStop st) st.token replyText = handleStop st := by
  intro st replyText hb
  refine ⟨rfl, rfl, rfl, ?_⟩
  have hne : st.token ≠ st.token + 1 := by omega
  simp [deliverTurnResult, handleStop, hne]

/-- Witness for C4: stopping a concrete in-flight session appends the marker Message once
and the abort signal then appends nothing further. -/
theorem stop_action_appends_marker_once_witness :
    (handleStop ⟨[], true, 0⟩).messages
        = ([] : List Message) ++ [⟨Role.model, stoppedByUserText, none⟩]
      ∧ deliverFailure (handleStop ⟨[], true, 0⟩) true = handleStop ⟨[], true, 0⟩ :=
  ⟨(stop_action_appends_marker_once ⟨[], true, 0⟩ "late" rfl).1,
   (stop_action_appends_marker_once ⟨[], true, 0⟩ "late" rfl).2.2.1⟩

/-- Request-lifecycle view of one builder instance, from src/components/PromptBuilder.tsx:
the isBuilding flag and the number of outstanding backend turns. -/
structure TurnMachine where
  isBuilding : Bool
  inFlight : Nat
deriving DecidableEq

/-- User-interface events that touch the request lifecycle: a start attempt (Enter key at
line 641, generate button at lines 656 to 662, regenerate button at lines 646 to 654, with
hasPayload false modelling the empty-prompt early return at line 220) and the settling of
the outstanding turn (the finally at line 282). -/
inductive BuilderEvent where
  | startAttempt (hasPayload : Bool)
  | settle
deriving DecidableEq

/-- Event step of the request lifecycle, from src/components/PromptBuilder.tsx: every
start path is guarded by isBuilding (the Enter handler tests it, the generate button is
disabled on it, the regenerate button is not rendered on it), so a start attempt while
building is ignored; a successful start sets isBuilding and issues one turn; settling
completes the turn and clears the flag. -/
def stepTurn (st : TurnMachine) (e : BuilderEvent) : TurnMachine :=
  match e with
  | BuilderEvent.startAttempt hasPayload =>
      if st.isBuilding then st
      else if hasPayload then ⟨true, st.inFlight + 1⟩ else st
  | BuilderEvent.settle =>
      match st.inFlight with
      | 0 => st
      | n + 1 => ⟨false, n⟩

/-- Lifecycle run from the initial idle state (no messages, not building). -/
def runTurn (evs : List BuilderEvent) : TurnMachine :=
  evs.foldl stepTurn ⟨false, 0⟩

/-- Invariant tying the outstanding-turn count to the isBuilding flag. -/
def turnInv (st : TurnMachine) : Prop :=
  st.inFlight = (if st.isBuilding then 1 else 0)

lemma stepTurn_inv (st : TurnMachine) (e : BuilderEvent) (h : turnInv st) :
    turnInv (stepTurn st e) := by
  cases e with
  | startAttempt hasPayload =>
      unfold stepTurn
      cases hb : st.isBuilding with
      | true => simpa using h
      | false =>
          cases hasPayload with
          | true =>
              simp only [Bool.false_eq_true, if_false, if_true, eq_self_iff_true]
              simp only [turnInv, hb, if_false, Bool.false_eq_true] at h
              simp [turnInv, h]
          | false => simpa using h
  | settle =>
      unfold stepTurn
      cases hf : st.inFlight with
      | zero => simpa using h
      | succ n =>
          cases hb : st.isBuilding <;> simp [turnInv, hb, hf] at h ⊢
          omega

lemma foldl_stepTurn_inv (evs : List BuilderEvent) (st : TurnMachine)
    (h : turnInv st) : turnInv (evs.foldl stepTurn st) := by
  induction evs generalizing st with
  | nil => exact h
  | cons e evs ih => exact ih _ (stepTurn_inv st e h)

/-- C5: at most one generation turn is in flight at a time (every event sequence from the
idle initial state keeps the outstanding-turn count at or below one, because each start
path is guarded by isBuilding), and a turn result arriving with a superseded cancellation
handle is never appended to the transcript. -/
theorem single_flight_and_stale_discard :
    (∀ evs : List BuilderEvent, (runTurn evs).inFlight ≤ 1)
    ∧ (∀ (st : SessionState) (callToken : Nat) (replyText : String),
        callToken ≠ st.token →
        deliverTurnResult st callToken replyText = st) := by
  constructor
  · intro evs
    have h := foldl_stepTurn_inv evs ⟨false, 0⟩ (by simp [turnInv])
    unfold runTurn
    rw [turnInv] at h
    rw [h]
    split
    · exact Nat.le_refl 1
    · exact Nat.zero_le 1
  · intro st callToken replyText hne
    have hbeq : (callToken == st.token) = false := by simpa using hne
    simp [deliverTurnResult, hbeq]

/-- Witness for C5: a concrete stale result (handle 4 against current handle 5) is
discarded, leaving the session state unchanged. -/
theorem single_flight_and_stale_discard_witness :
    deliverTurnResult ⟨[], false, 5⟩ 4 "stale reply" = ⟨[], false, 5⟩ :=
  single_flight_and_stale_discard.2 ⟨[], false, 5⟩ 4 "stale reply" (by decide)
